import Mathlib

/-!
Verification of the performance-tracking subsystem of the model-registry
dashboard (source: `performance.py`, with the `ModelInfo` descriptor from
`models.py`).

Shallow embedding conventions:
* Python floats are modelled as `ℚ` (all constants in the source are small
  decimals, kept exact here).
* Python `dict`s are modelled as association lists preserving insertion
  order (Python dicts iterate in insertion order, which the source relies
  on in `_estimate_model_size` and `get_system_overview`).
* Randomness (`secrets` draws) and system introspection (`psutil` calls,
  which can raise) are explicit parameters: a draw in `[0,1)` is a `ℚ`
  argument, an introspection result is an `Except Unit ℚ`.
* Python truthiness on floats (`if threshold`, `if model.size_mb`) is
  `≠ 0` on the wrapped value, `False` on `None`.
-/

/-- `ModelInfo` from `models.py` (the fields the performance module reads).
`size_mb = none` models Python `None`. -/
structure ModelInfo where
  name : String
  task_type : String
  library : String
  size_mb : Option ℚ := none
  downloads : Option Nat := none
deriving DecidableEq

/-- `PerformanceMetrics` dataclass. The timestamp is the string produced at
creation time, threaded as a parameter where the source calls `datetime.now()`. -/
structure PerformanceMetrics where
  model_name : String
  timestamp : String := ""
  memory_usage_mb : ℚ := 0
  cpu_usage_percent : ℚ := 0
  inference_time_ms : ℚ := 0
  throughput_tokens_per_sec : ℚ := 0
  model_size_mb : ℚ := 0
  gpu_usage_percent : Option ℚ := none
  error_rate : ℚ := 0
  status : String := "healthy"
deriving DecidableEq

/-- Values appearing in the serialized dictionaries returned by the source
(strings, floats, optional floats). -/
inductive PyValue where
  | str (s : String)
  | num (q : ℚ)
  | onum (q : Option ℚ)
deriving DecidableEq

/-- `PerformanceMetrics.to_dict`. -/
def PerformanceMetrics.to_dict (m : PerformanceMetrics) : List (String × PyValue) :=
  [("model_name", .str m.model_name),
   ("timestamp", .str m.timestamp),
   ("memory_usage_mb", .num m.memory_usage_mb),
   ("cpu_usage_percent", .num m.cpu_usage_percent),
   ("inference_time_ms", .num m.inference_time_ms),
   ("throughput_tokens_per_sec", .num m.throughput_tokens_per_sec),
   ("model_size_mb", .num m.model_size_mb),
   ("gpu_usage_percent", .onum m.gpu_usage_percent),
   ("error_rate", .num m.error_rate),
   ("status", .str m.status)]

/-- Default `PerformanceMetrics` (all numeric fields 0), used where Python
indexes a list it has proved non-empty. -/
def defaultMetrics : PerformanceMetrics := { model_name := "" }

/-! ## MetricsCollector -/

/-- `MetricsCollector._get_memory_usage`: `rss / 1024 / 1024` from `psutil`,
falling back to `512.0` when introspection raises. -/
def get_memory_usage (introspect : Except Unit ℚ) : ℚ :=
  match introspect with
  | .ok rss => rss / 1024 / 1024
  | .error _ => 512

/-- `MetricsCollector._get_cpu_usage`: `psutil.cpu_percent`, falling back to
`25.0` when introspection raises. -/
def get_cpu_usage (introspect : Except Unit ℚ) : ℚ :=
  match introspect with
  | .ok pct => pct
  | .error _ => 25

/-- The `task_multipliers` table of `_simulate_inference_time`
(1.5 = 3/2, 1.8 = 9/5, 1.6 = 8/5). -/
def task_multipliers : List (String × ℚ) :=
  [("text-generation", 2),
   ("text-classification", 1),
   ("question-answering", 3/2),
   ("summarization", 9/5),
   ("translation", 8/5)]

/-- `MetricsCollector._simulate_inference_time`. Note the Python guard
`if model.size_mb:` is truthiness: `None` and `0.0` both skip the scaling. -/
def simulate_inference_time (model : ModelInfo) : ℚ :=
  let base_time : ℚ := 50
  let base_time :=
    match model.size_mb with
    | some s => if s ≠ 0 then base_time * (1 + s / 1000 * (1/2)) else base_time
    | none => base_time
  let multiplier := (task_multipliers.lookup model.task_type).getD 1
  base_time * multiplier

/-- The `task_throughputs` table of `_simulate_throughput`. -/
def task_throughputs : List (String × ℚ) :=
  [("text-generation", 80),
   ("text-classification", 200),
   ("question-answering", 120),
   ("summarization", 60),
   ("translation", 90)]

/-- `MetricsCollector._simulate_throughput`. -/
def simulate_throughput (model : ModelInfo) : ℚ :=
  (task_throughputs.lookup model.task_type).getD 100

/-- The `size_estimates` table of `_estimate_model_size`, in source order
(Python dict iteration order is insertion order). -/
def size_estimates : List (String × ℚ) :=
  [("bert-base", 440),
   ("bert-large", 1340),
   ("gpt2", 548),
   ("distilbert", 268),
   ("roberta-base", 498),
   ("t5-small", 242),
   ("t5-base", 892)]

/-- Prefix test on character lists. -/
def isPrefixB : List Char → List Char → Bool
  | [], _ => true
  | _ :: _, [] => false
  | a :: as, b :: bs => a == b && isPrefixB as bs

/-- Contiguous-sublist test on character lists. -/
def isSubB (pattern : List Char) : List Char → Bool
  | [] => pattern.isEmpty
  | b :: bs => isPrefixB pattern (b :: bs) || isSubB pattern bs

/-- Python `pattern in s` on strings: contiguous-substring test. -/
def containsSub (pattern s : String) : Bool :=
  isSubB pattern.toList s.toList

/-- Python `str.lower()` (ASCII suffices for the names involved). -/
def pyLower (s : String) : String := String.mk (s.toList.map Char.toLower)

/-- The `for pattern, size in size_estimates.items()` loop of
`_estimate_model_size`: first pattern (in table order) occurring in the
lowercased name wins; `300.0` if none does. -/
def estimate_size_loop (nameLower : String) : List (String × ℚ) → ℚ
  | [] => 300
  | (pattern, size) :: rest =>
      if containsSub pattern nameLower then size else estimate_size_loop nameLower rest

/-- `MetricsCollector._estimate_model_size`. -/
def estimate_model_size (model : ModelInfo) : ℚ :=
  estimate_size_loop (pyLower model.name) size_estimates

/-- `MetricsCollector._determine_status`, with the single `secrets` draw in
`[0,1)` passed as `random_value`. The source's loop over the three statuses is
unrolled; `model.size_mb and model.size_mb > 1000` is truthiness then
comparison. The fixed `statuses[0]` fallback after the loop is the final
`else`. -/
def determine_status (model : ModelInfo) (random_value : ℚ) : String :=
  let w0 : ℚ := 8/10
  let w1 : ℚ := 15/100
  let w2 : ℚ := 5/100
  let big : Bool :=
    match model.size_mb with
    | some s => s ≠ 0 && s > 1000
    | none => false
  let (w0, w1, w2) :=
    if big then (w0 - 1/10, w1 + 8/100, w2 + 2/100) else (w0, w1, w2)
  let complexTask : Bool :=
    model.task_type == "text-generation" || model.task_type == "summarization"
  let (w0, w1, w2) :=
    if complexTask then (w0 - 5/100, w1 + 4/100, w2 + 1/100) else (w0, w1, w2)
  let total := w0 + w1 + w2
  let (w0, w1, w2) := (w0 / total, w1 / total, w2 / total)
  if random_value ≤ w0 then "healthy"
  else if random_value ≤ w0 + w1 then "warning"
  else if random_value ≤ w0 + w1 + w2 then "degraded"
  else "healthy"

/-- `MetricsCollector` state: the internal audit history appended by
`collect_metrics`. -/
structure CollectorState where
  collection_history : List PerformanceMetrics := []
deriving DecidableEq

/-- `MetricsCollector.collect_metrics`. Randomness and introspection are
explicit inputs: `ts` the creation timestamp, `memIntrospect`/`cpuIntrospect`
the `psutil` results (error = raised), `gpu` the simulated GPU draw,
`errRate` the error-rate draw, `statusDraw` the status draw in `[0,1)`.
`model.size_mb or self._estimate_model_size(model)` is Python `or`:
the declared size is used only when truthy (present and non-zero). -/
def collect_metrics (st : CollectorState) (model : ModelInfo) (ts : String)
    (memIntrospect cpuIntrospect : Except Unit ℚ) (gpu : Option ℚ)
    (errRate : ℚ) (statusDraw : ℚ) : CollectorState × PerformanceMetrics :=
  let size :=
    match model.size_mb with
    | some s => if s ≠ 0 then s else estimate_model_size model
    | none => estimate_model_size model
  let metrics : PerformanceMetrics :=
    { model_name := model.name
      timestamp := ts
      memory_usage_mb := get_memory_usage memIntrospect
      cpu_usage_percent := get_cpu_usage cpuIntrospect
      inference_time_ms := simulate_inference_time model
      throughput_tokens_per_sec := simulate_throughput model
      model_size_mb := size
      gpu_usage_percent := gpu
      error_rate := errRate
      status := determine_status model statusDraw }
  ({ collection_history := st.collection_history ++ [metrics] }, metrics)

/-! ## PerformanceMonitor -/

/-- One alert dictionary built by `_check_thresholds`. -/
structure Alert where
  type : String
  metric : String
  value : ℚ
  threshold : ℚ
  model : String
  timestamp : String
  severity : String
deriving DecidableEq

/-- The threshold table. The source stores it as a dict; `none` models an
absent key (`self.thresholds.get(key)` returning `None`). -/
structure Thresholds where
  max_memory_mb : Option ℚ := none
  max_cpu_percent : Option ℚ := none
  max_inference_time_ms : Option ℚ := none
  min_throughput_tokens_per_sec : Option ℚ := none
  max_error_rate : Option ℚ := none
deriving DecidableEq

/-- The default threshold table installed by `PerformanceMonitor.__init__`. -/
def defaultThresholds : Thresholds :=
  { max_memory_mb := some 2048
    max_cpu_percent := some 80
    max_inference_time_ms := some 1000
    min_throughput_tokens_per_sec := some 50
    max_error_rate := some 10 }

/-- One iteration of the `for metric_name, value, threshold_key in checks`
loop of `_check_thresholds`: `if threshold and value > threshold` is Python
truthiness (`None` and `0` skip) followed by the strict comparison. -/
def threshold_check (metric_name : String) (value : ℚ) (tOpt : Option ℚ)
    (m : PerformanceMetrics) : List Alert :=
  match tOpt with
  | some threshold =>
      if threshold ≠ 0 ∧ value > threshold then
        [{ type := "threshold_exceeded"
           metric := metric_name
           value := value
           threshold := threshold
           model := m.model_name
           timestamp := m.timestamp
           severity := if value > threshold * (3/2) then "high" else "medium" }]
      else []
  | none => []

/-- `PerformanceMonitor._check_thresholds`: the four max-threshold checks in
source order, then the minimum-throughput check (`if min_throughput and
metrics.throughput_tokens_per_sec < min_throughput`). -/
def check_thresholds (thresholds : Thresholds) (m : PerformanceMetrics) : List Alert :=
  let checks : List (String × ℚ × Option ℚ) :=
    [("memory_usage_mb", m.memory_usage_mb, thresholds.max_memory_mb),
     ("cpu_usage_percent", m.cpu_usage_percent, thresholds.max_cpu_percent),
     ("inference_time_ms", m.inference_time_ms, thresholds.max_inference_time_ms),
     ("error_rate", m.error_rate, thresholds.max_error_rate)]
  let alerts := checks.foldl
    (fun acc c => acc ++ threshold_check c.1 c.2.1 c.2.2 m) []
  match thresholds.min_throughput_tokens_per_sec with
  | some min_throughput =>
      if min_throughput ≠ 0 ∧ m.throughput_tokens_per_sec < min_throughput then
        alerts ++
          [{ type := "throughput_low"
             metric := "throughput_tokens_per_sec"
             value := m.throughput_tokens_per_sec
             threshold := min_throughput
             model := m.model_name
             timestamp := m.timestamp
             severity := "medium" }]
      else alerts
  | none => alerts

/-- `PerformanceMonitor._calculate_trends`, as a function of the model's
history list (`self.performance_history.get(model_name, [])`). `history[-1]`
and `history[-2]` are the last and second-to-last entries, defined because
the guard ensures `length ≥ 2`. -/
def calculate_trends (history : List PerformanceMetrics) : List (String × String) :=
  if history.length < 2 then [("trend", "insufficient_data")]
  else
    let recent := history.getLastD defaultMetrics
    let previous := history.dropLast.getLastD defaultMetrics
    let memory_change := recent.memory_usage_mb - previous.memory_usage_mb
    let memory_trend :=
      if memory_change > 10 then "increasing"
      else if memory_change < -10 then "decreasing"
      else "stable"
    let cpu_change := recent.cpu_usage_percent - previous.cpu_usage_percent
    let cpu_trend :=
      if cpu_change > 5 then "increasing"
      else if cpu_change < -5 then "decreasing"
      else "stable"
    let time_change := recent.inference_time_ms - previous.inference_time_ms
    let performance_trend :=
      if time_change > 50 then "degrading"
      else if time_change < -50 then "improving"
      else "stable"
    [("memory", memory_trend), ("cpu", cpu_trend), ("performance", performance_trend)]

/-- `PerformanceMonitor` state: `performance_history` is a dict from model
name to sample list (association list in insertion order), `alerts` the
global alert log, `thresholds` the current table. -/
structure PerformanceMonitor where
  performance_history : List (String × List PerformanceMetrics) := []
  alerts : List Alert := []
  thresholds : Thresholds := defaultThresholds
deriving DecidableEq

/-- The state built by `PerformanceMonitor.__init__`. -/
def init_monitor : PerformanceMonitor := {}

/-- Dict update performed by `track_performance`: create the key with `[]`
if absent (new keys go to the end, as in a Python dict), then append the
sample to that key's list. -/
def histAppend (h : List (String × List PerformanceMetrics)) (name : String)
    (m : PerformanceMetrics) : List (String × List PerformanceMetrics) :=
  match h with
  | [] => [(name, [m])]
  | (k, v) :: rest =>
      if k = name then (k, v ++ [m]) :: rest
      else (k, v) :: histAppend rest name m

/-- The dictionary returned by `track_performance`. -/
structure TrackingResult where
  model_name : String
  current_metrics : List (String × PyValue)
  alerts : List Alert
  trends : List (String × String)
  status : String
deriving DecidableEq

/-- `PerformanceMonitor.track_performance`: store the sample, evaluate
thresholds against the current table and extend the global log, compute
trends on the now-updated history, return the combined result. -/
def track_performance (st : PerformanceMonitor) (model_name : String)
    (metrics : PerformanceMetrics) : PerformanceMonitor × TrackingResult :=
  let history := histAppend st.performance_history model_name metrics
  let alerts := check_thresholds st.thresholds metrics
  let st' : PerformanceMonitor :=
    { st with performance_history := history, alerts := st.alerts ++ alerts }
  let trends := calculate_trends ((history.lookup model_name).getD [])
  (st', { model_name := model_name
          current_metrics := metrics.to_dict
          alerts := alerts
          trends := trends
          status := metrics.status })

/-- The summary dictionary of `get_model_summary` (success case). -/
structure ModelSummary where
  model_name : String
  latest_metrics : List (String × PyValue)
  avg_memory : ℚ
  avg_cpu : ℚ
  avg_inference : ℚ
  avg_throughput : ℚ
  metrics_count : Nat
  alerts_count : Nat
  status : String
deriving DecidableEq

/-- `get_model_summary` returns either the `{"error": ...}` dictionary or a
summary. -/
inductive SummaryResult where
  | error (msg : String)
  | ok (s : ModelSummary)
deriving DecidableEq

/-- `PerformanceMonitor.get_model_summary`. -/
def get_model_summary (st : PerformanceMonitor) (model_name : String) : SummaryResult :=
  let history := (st.performance_history.lookup model_name).getD []
  if history.isEmpty then .error "No performance data available"
  else
    let latest := history.getLastD defaultMetrics
    let avg_memory := (history.map (·.memory_usage_mb)).sum / history.length
    let avg_cpu := (history.map (·.cpu_usage_percent)).sum / history.length
    let avg_inference := (history.map (·.inference_time_ms)).sum / history.length
    let total_throughput := (history.map (·.throughput_tokens_per_sec)).sum
    let avg_throughput := total_throughput / history.length
    let model_alerts := st.alerts.filter (fun a => a.model == model_name)
    .ok { model_name := model_name
          latest_metrics := latest.to_dict
          avg_memory := avg_memory
          avg_cpu := avg_cpu
          avg_inference := avg_inference
          avg_throughput := avg_throughput
          metrics_count := history.length
          alerts_count := model_alerts.length
          status := latest.status }

/-- `status_counts.get(status, 0) + 1` on the status-distribution dict. -/
def bumpCount (counts : List (String × Nat)) (status : String) : List (String × Nat) :=
  match counts with
  | [] => [(status, 1)]
  | (k, v) :: rest =>
      if k = status then (k, v + 1) :: rest
      else (k, v) :: bumpCount rest status

/-- The overview dictionary of `get_system_overview`. -/
structure SystemOverview where
  total_models_monitored : Nat
  total_metrics_collected : Nat
  total_alerts : Nat
  status_distribution : List (String × Nat)
  monitoring_thresholds : Thresholds
deriving DecidableEq

/-- `PerformanceMonitor.get_system_overview`: the status histogram counts the
last sample's status of each model whose history is non-empty. -/
def get_system_overview (st : PerformanceMonitor) : SystemOverview :=
  { total_models_monitored := st.performance_history.length
    total_metrics_collected := (st.performance_history.map (fun p => p.2.length)).sum
    total_alerts := st.alerts.length
    status_distribution := st.performance_history.foldl
      (fun counts p =>
        if p.2.isEmpty then counts
        else bumpCount counts (p.2.getLastD defaultMetrics).status) []
    monitoring_thresholds := st.thresholds }

/-! ## Specification-side definitions

These are written from the specification's words (not from the source), to
be compared with the embedded source functions above. -/

/-- Spec rule for one max-threshold metric: "an alert of type
threshold_exceeded is emitted if and only if the observed value is strictly
greater than the corresponding max threshold, with severity high if the
value is strictly greater than 1.5 times the threshold and medium
otherwise". -/
def spec_exceed_alert (metric_name : String) (value threshold : ℚ)
    (m : PerformanceMetrics) : List Alert :=
  if value > threshold then
    [{ type := "threshold_exceeded"
       metric := metric_name
       value := value
       threshold := threshold
       model := m.model_name
       timestamp := m.timestamp
       severity := if value > 3/2 * threshold then "high" else "medium" }]
  else []

/-- Spec rule lifted to an optional threshold (no configured threshold, no
comparison to make). -/
def spec_opt_exceed (metric_name : String) (value : ℚ) (tOpt : Option ℚ)
    (m : PerformanceMetrics) : List Alert :=
  match tOpt with
  | some threshold => spec_exceed_alert metric_name value threshold m
  | none => []

/-- Spec rule for throughput: "an alert of type throughput_low with
severity medium is emitted if and only if throughput_tokens_per_sec is
strictly less than min_throughput_tokens_per_sec". -/
def spec_throughput_low (tOpt : Option ℚ) (m : PerformanceMetrics) : List Alert :=
  match tOpt with
  | some min_throughput =>
      if m.throughput_tokens_per_sec < min_throughput then
        [{ type := "throughput_low"
           metric := "throughput_tokens_per_sec"
           value := m.throughput_tokens_per_sec
           threshold := min_throughput
           model := m.model_name
           timestamp := m.timestamp
           severity := "medium" }]
      else []
  | none => []

/-- The evaluator as the specification words it: the four max-threshold
alerts in the fixed order memory, cpu, inference_time, error_rate, then a
throughput_low alert of severity medium exactly when throughput is strictly
below the minimum; only violated metrics appear. -/
def check_thresholds_spec (t : Thresholds) (m : PerformanceMetrics) : List Alert :=
  spec_opt_exceed "memory_usage_mb" m.memory_usage_mb t.max_memory_mb m
  ++ spec_opt_exceed "cpu_usage_percent" m.cpu_usage_percent t.max_cpu_percent m
  ++ spec_opt_exceed "inference_time_ms" m.inference_time_ms t.max_inference_time_ms m
  ++ spec_opt_exceed "error_rate" m.error_rate t.max_error_rate m
  ++ spec_throughput_low t.min_throughput_tokens_per_sec m

/-- Spec trend rule for memory: increasing above +10, decreasing below -10,
else stable (strict comparisons on the newest-minus-previous delta). -/
def memory_trend_spec (delta : ℚ) : String :=
  if delta > 10 then "increasing" else if delta < -10 then "decreasing" else "stable"

/-- Spec trend rule for cpu: increasing above +5, decreasing below -5, else
stable. -/
def cpu_trend_spec (delta : ℚ) : String :=
  if delta > 5 then "increasing" else if delta < -5 then "decreasing" else "stable"

/-- Spec trend rule for performance (inference-time delta): degrading above
+50, improving below -50, else stable. -/
def performance_trend_spec (delta : ℚ) : String :=
  if delta > 50 then "degrading" else if delta < -50 then "improving" else "stable"

/-- The fixed per-task inference-time multiplier as the spec lists it. -/
def task_multiplier_spec (t : String) : ℚ :=
  if t = "text-generation" then 2
  else if t = "text-classification" then 1
  else if t = "question-answering" then 3/2
  else if t = "summarization" then 9/5
  else if t = "translation" then 8/5
  else 1

/-- The spec's size factor: `1 + (size_mb/1000)*0.5` when a declared size is
present, no size factor otherwise. -/
def size_factor_spec : Option ℚ → ℚ
  | some s => 1 + s / 1000 * (1/2)
  | none => 1

/-- The patterns of the size-estimate table matching a model name
(substring test on the lowercased name), in table order. -/
def matching_patterns (name : String) : List (String × ℚ) :=
  size_estimates.filter (fun p => containsSub p.1 (pyLower name))

/-- The claim's size estimate: the size selected by longest-match over the
pattern table ("longest-prefix-style substring match"); 300.0 when no
pattern matches. -/
def estimate_longest_spec (model : ModelInfo) : ℚ :=
  let best := (matching_patterns model.name).foldl
    (fun best p =>
      match best with
      | none => some p
      | some q => if p.1.length > q.1.length then some p else some q)
    none
  match best with
  | some p => p.2
  | none => 300

/-- The amended size estimate: the first pattern in the fixed table order
that occurs in the lowercased name; 300.0 when none does. -/
def estimate_first_spec (model : ModelInfo) : ℚ :=
  match size_estimates.find? (fun p => containsSub p.1 (pyLower model.name)) with
  | some p => p.2
  | none => 300

/-- The spec's base status weights {healthy 0.8, warning 0.15, degraded
0.05}. -/
def base_weights_spec : ℚ × ℚ × ℚ := (8/10, 15/100, 5/100)

/-- The spec's adjusted weights: shift (-0.10, +0.08, +0.02) when the
declared size exceeds 1000 MB, then (-0.05, +0.04, +0.01) when the task
type is text-generation or summarization. -/
def adjusted_weights_spec (model : ModelInfo) : ℚ × ℚ × ℚ :=
  let w := base_weights_spec
  let w :=
    match model.size_mb with
    | some s => if s > 1000 then (w.1 - 10/100, w.2.1 + 8/100, w.2.2 + 2/100) else w
    | none => w
  if model.task_type = "text-generation" ∨ model.task_type = "summarization" then
    (w.1 - 5/100, w.2.1 + 4/100, w.2.2 + 1/100)
  else w

/-- The spec's renormalized weights (divide by the sum so they sum to 1). -/
def normalized_weights_spec (model : ModelInfo) : ℚ × ℚ × ℚ :=
  let w := adjusted_weights_spec model
  let t := w.1 + w.2.1 + w.2.2
  (w.1 / t, w.2.1 / t, w.2.2 / t)

/-- The spec's status selection: one draw `r` in `[0,1)` compared against
cumulative weights in the fixed order healthy, warning, degraded. -/
def status_select_spec (model : ModelInfo) (r : ℚ) : String :=
  let w := normalized_weights_spec model
  if r ≤ w.1 then "healthy"
  else if r ≤ w.1 + w.2.1 then "warning"
  else "degraded"

/-- A sequence of `track_performance` calls for one model, threading the
monitor state. -/
def trackMany (st : PerformanceMonitor) (name : String)
    (ms : List PerformanceMetrics) : PerformanceMonitor :=
  ms.foldl (fun s m => (track_performance s name m).1) st

/-- The summary's divisor is sound: whenever a summary is returned (not the
"no data" condition), its sample count is positive. -/
def summary_count_pos (r : SummaryResult) : Bool :=
  match r with
  | .error _ => true
  | .ok s => decide (0 < s.metrics_count)

/-- Monitor states reachable from construction through tracking calls and
wholesale threshold replacement (the only mutations the system performs). -/
inductive Reachable : PerformanceMonitor → Prop where
  | init : Reachable init_monitor
  | track (st : PerformanceMonitor) (name : String) (m : PerformanceMetrics) :
      Reachable st → Reachable (track_performance st name m).1
  | set_thresholds (st : PerformanceMonitor) (t : Thresholds) :
      Reachable st → Reachable { st with thresholds := t }

/-- The minimum-throughput branch of `_check_thresholds`, as a standalone
function (used to restate the evaluator loop as an explicit append). -/
def throughput_check (tOpt : Option ℚ) (m : PerformanceMetrics) : List Alert :=
  match tOpt with
  | some min_throughput =>
      if min_throughput ≠ 0 ∧ m.throughput_tokens_per_sec < min_throughput then
        [{ type := "throughput_low"
           metric := "throughput_tokens_per_sec"
           value := m.throughput_tokens_per_sec
           threshold := min_throughput
           model := m.model_name
           timestamp := m.timestamp
           severity := "medium" }]
      else []
  | none => []

/-! ## Helper lemmas -/

theorem check_thresholds_eq (t : Thresholds) (m : PerformanceMetrics) :
    check_thresholds t m =
      threshold_check "memory_usage_mb" m.memory_usage_mb t.max_memory_mb m
      ++ threshold_check "cpu_usage_percent" m.cpu_usage_percent t.max_cpu_percent m
      ++ threshold_check "inference_time_ms" m.inference_time_ms t.max_inference_time_ms m
      ++ threshold_check "error_rate" m.error_rate t.max_error_rate m
      ++ throughput_check t.min_throughput_tokens_per_sec m := by
  cases ht : t.min_throughput_tokens_per_sec with
  | none => simp [check_thresholds, throughput_check, ht]
  | some mt => simp [check_thresholds, throughput_check, ht]; split <;> simp

theorem getLastD_append_singleton {α : Type} (l : List α) (a d : α) :
    (l ++ [a]).getLastD d = a := by
  rw [List.getLastD_concat]

theorem dropLast_append_singleton {α : Type} (l : List α) (a : α) :
    (l ++ [a]).dropLast = l := by
  rw [List.dropLast_concat]

theorem task_multiplier_lookup (t : String) :
    (task_multipliers.lookup t).getD 1 = task_multiplier_spec t := by
  unfold task_multipliers task_multiplier_spec
  by_cases h1 : t = "text-generation"
  · simp [List.lookup, h1]
  by_cases h2 : t = "text-classification"
  · simp [List.lookup, h1, h2]
  by_cases h3 : t = "question-answering"
  · simp [List.lookup, h1, h2, h3]
  by_cases h4 : t = "summarization"
  · simp [List.lookup, h1, h2, h3, h4]
  by_cases h5 : t = "translation"
  · simp [List.lookup, h1, h2, h3, h4, h5]
  · have e1 : (t == "text-generation") = false := by simp [h1]
    have e2 : (t == "text-classification") = false := by simp [h2]
    have e3 : (t == "question-answering") = false := by simp [h3]
    have e4 : (t == "summarization") = false := by simp [h4]
    have e5 : (t == "translation") = false := by simp [h5]
    simp [List.lookup, e1, e2, e3, e4, e5, h1, h2, h3, h4, h5]

/-! ## Claims -/

/-- C8: `collect_metrics` is total (it returns a `PerformanceMetrics`, never
an error, for every descriptor and every environment outcome); when the
memory and CPU introspection calls raise, the error is absorbed and the
sample carries the fixed defaults 512.0 MB and 25.0%. -/
theorem collect_absorbs_introspection_failure
    (st : CollectorState) (model : ModelInfo) (ts : String) (gpu : Option ℚ)
    (errRate statusDraw : ℚ) :
    (collect_metrics st model ts (.error ()) (.error ()) gpu
        errRate statusDraw).2.memory_usage_mb = 512
    ∧ (collect_metrics st model ts (.error ()) (.error ()) gpu
        errRate statusDraw).2.cpu_usage_percent = 25 :=
  ⟨rfl, rfl⟩

/-- C5: the collected inference time is the base 50.0 times the size factor
`1 + (size_mb/1000)*0.5` (applied exactly when a declared size is present;
no size factor, and no substituted estimate, when it is absent) times the
fixed per-task multiplier; in particular "gpt2" / "text-generation" with no
declared size yields exactly 100.0. -/
theorem inference_time_formula (model : ModelInfo) :
    simulate_inference_time model =
      50 * size_factor_spec model.size_mb * task_multiplier_spec model.task_type
    ∧ simulate_inference_time
        { name := "gpt2", task_type := "text-generation",
          library := "transformers" } = 100 := by
  constructor
  · unfold simulate_inference_time
    rw [task_multiplier_lookup]
    cases hs : model.size_mb with
    | none => simp [size_factor_spec]
    | some s =>
        by_cases h0 : s = 0
        · subst h0; simp [size_factor_spec]
        · simp [size_factor_spec, h0]
  · show simulate_inference_time
        { name := "gpt2", task_type := "text-generation",
          library := "transformers" } = 100
    simp [simulate_inference_time, task_multipliers, List.lookup]
    norm_num

/-- C3: with fewer than 2 samples the trend result is the single sentinel
`{trend: insufficient_data}`; with at least 2 samples (history `pre ++ [p, r]`)
the trend is computed from the last two samples only, by the spec's strict
delta rules for memory, cpu and performance, and no other metric is
trended. -/
theorem calculate_trends_spec (history pre : List PerformanceMetrics)
    (p r : PerformanceMetrics) :
    (history.length < 2 → calculate_trends history = [("trend", "insufficient_data")])
    ∧ calculate_trends (pre ++ [p, r]) =
        [("memory", memory_trend_spec (r.memory_usage_mb - p.memory_usage_mb)),
         ("cpu", cpu_trend_spec (r.cpu_usage_percent - p.cpu_usage_percent)),
         ("performance",
          performance_trend_spec (r.inference_time_ms - p.inference_time_ms))] := by
  constructor
  · intro h
    simp [calculate_trends, h]
  · have hlen : ¬(pre ++ [p, r]).length < 2 := by
      simp
    have hsplit : pre ++ [p, r] = (pre ++ [p]) ++ [r] := by
      simp
    unfold calculate_trends
    rw [if_neg hlen, hsplit, getLastD_append_singleton, dropLast_append_singleton,
      getLastD_append_singleton]
    rfl

/-- Witness for C3: the sentinel on a single-sample history, and the spec
deltas on the two-sample history [mem 100, mem 115] (increasing memory,
stable cpu and performance). -/
theorem calculate_trends_spec_witness :
    calculate_trends [{ model_name := "m", memory_usage_mb := 100 }]
        = [("trend", "insufficient_data")]
    ∧ calculate_trends [{ model_name := "m", memory_usage_mb := 100 },
        { model_name := "m", memory_usage_mb := 115 }]
        = [("memory", "increasing"), ("cpu", "stable"), ("performance", "stable")] := by
  constructor
  · exact (calculate_trends_spec [{ model_name := "m", memory_usage_mb := 100 }] []
      defaultMetrics defaultMetrics).1 (by decide)
  · rw [show ([{ model_name := "m", memory_usage_mb := 100 },
        { model_name := "m", memory_usage_mb := 115 }] :
        List PerformanceMetrics) = [] ++ [{ model_name := "m", memory_usage_mb := 100 },
        { model_name := "m", memory_usage_mb := 115 }] from rfl]
    rw [(calculate_trends_spec [] [] { model_name := "m", memory_usage_mb := 100 }
      { model_name := "m", memory_usage_mb := 115 }).2]
    norm_num [memory_trend_spec, cpu_trend_spec, performance_trend_spec]

theorem threshold_check_eq_spec (n : String) (v : ℚ) (tOpt : Option ℚ)
    (m : PerformanceMetrics) (h : tOpt ≠ some 0) :
    threshold_check n v tOpt m = spec_opt_exceed n v tOpt m := by
  cases tOpt with
  | none => rfl
  | some th =>
      have h0 : th ≠ 0 := fun e => h (by rw [e])
      simp only [threshold_check, spec_opt_exceed, spec_exceed_alert]
      by_cases hv : v > th
      · rw [if_pos (show th ≠ 0 ∧ v > th from ⟨h0, hv⟩), if_pos hv, mul_comm th (3/2)]
      · rw [if_neg (show ¬(th ≠ 0 ∧ v > th) from fun hc => hv hc.2), if_neg hv]

theorem throughput_check_eq_spec (tOpt : Option ℚ) (m : PerformanceMetrics)
    (h : tOpt ≠ some 0) :
    throughput_check tOpt m = spec_throughput_low tOpt m := by
  cases tOpt with
  | none => rfl
  | some mt =>
      have h0 : mt ≠ 0 := fun e => h (by rw [e])
      simp only [throughput_check, spec_throughput_low]
      by_cases hv : m.throughput_tokens_per_sec < mt
      · rw [if_pos (show mt ≠ 0 ∧ m.throughput_tokens_per_sec < mt from ⟨h0, hv⟩),
          if_pos hv]
      · rw [if_neg (show ¬(mt ≠ 0 ∧ m.throughput_tokens_per_sec < mt)
          from fun hc => hv hc.2), if_neg hv]

/-- Counterexample for C1: with the current threshold table holding
`max_memory_mb = 0` and a sample whose memory usage is 5, the claim's rule
(alert iff value strictly greater than the threshold) produces a
threshold_exceeded alert, but the evaluator emits nothing: the evaluator
checks a metric only when its configured threshold is truthy. -/
theorem check_thresholds_zero_counterexample :
    check_thresholds { defaultThresholds with max_memory_mb := some 0 }
        { model_name := "m", memory_usage_mb := 5, throughput_tokens_per_sec := 100 }
      ≠ check_thresholds_spec { defaultThresholds with max_memory_mb := some 0 }
        { model_name := "m", memory_usage_mb := 5, throughput_tokens_per_sec := 100 } := by
  intro h
  have h1 : check_thresholds { defaultThresholds with max_memory_mb := some 0 }
      { model_name := "m", memory_usage_mb := 5, throughput_tokens_per_sec := 100 } = [] := by
    rw [check_thresholds_eq]
    norm_num [threshold_check, throughput_check, defaultThresholds]
  have h2 : check_thresholds_spec { defaultThresholds with max_memory_mb := some 0 }
      { model_name := "m", memory_usage_mb := 5, throughput_tokens_per_sec := 100 }
      = [{ type := "threshold_exceeded", metric := "memory_usage_mb", value := 5,
           threshold := 0, model := "m", timestamp := "", severity := "high" }] := by
    norm_num [check_thresholds_spec, spec_opt_exceed, spec_exceed_alert, spec_throughput_low, defaultThresholds]
  rw [h1, h2] at h
  exact List.cons_ne_nil _ _ h.symm

/-- C1 (amended): for every sample and every current threshold table in
which no configured threshold is zero, the evaluator returns exactly the
alerts of the spec rule: per max-threshold metric (memory, cpu,
inference_time, error_rate, in that order) a threshold_exceeded alert iff
the value is strictly greater than the threshold, severity high iff
strictly above 1.5 times the threshold, then a medium throughput_low alert
iff throughput is strictly below the minimum; equality never triggers and
only violated metrics appear. -/
theorem check_thresholds_matches_spec (t : Thresholds) (m : PerformanceMetrics)
    (h1 : t.max_memory_mb ≠ some 0) (h2 : t.max_cpu_percent ≠ some 0)
    (h3 : t.max_inference_time_ms ≠ some 0) (h4 : t.max_error_rate ≠ some 0)
    (h5 : t.min_throughput_tokens_per_sec ≠ some 0) :
    check_thresholds t m = check_thresholds_spec t m := by
  rw [check_thresholds_eq, threshold_check_eq_spec _ _ _ _ h1,
    threshold_check_eq_spec _ _ _ _ h2, threshold_check_eq_spec _ _ _ _ h3,
    threshold_check_eq_spec _ _ _ _ h4, throughput_check_eq_spec _ _ h5]
  rfl

/-- Witness for C1 (amended): the default threshold table (all thresholds
non-zero) on a sample violating memory (severity high: 4096 > 1.5·2048),
cpu (severity medium: 81 ≤ 1.5·80) and throughput (10 < 50). -/
theorem check_thresholds_matches_spec_witness :
    check_thresholds defaultThresholds
        { model_name := "m", memory_usage_mb := 4096, cpu_usage_percent := 81,
          inference_time_ms := 10, error_rate := 1, throughput_tokens_per_sec := 10 }
      = check_thresholds_spec defaultThresholds
        { model_name := "m", memory_usage_mb := 4096, cpu_usage_percent := 81,
          inference_time_ms := 10, error_rate := 1, throughput_tokens_per_sec := 10 }
    ∧ check_thresholds_spec defaultThresholds
        { model_name := "m", memory_usage_mb := 4096, cpu_usage_percent := 81,
          inference_time_ms := 10, error_rate := 1, throughput_tokens_per_sec := 10 }
      = [{ type := "threshold_exceeded", metric := "memory_usage_mb", value := 4096,
           threshold := 2048, model := "m", timestamp := "", severity := "high" },
         { type := "threshold_exceeded", metric := "cpu_usage_percent", value := 81,
           threshold := 80, model := "m", timestamp := "", severity := "medium" },
         { type := "throughput_low", metric := "throughput_tokens_per_sec", value := 10,
           threshold := 50, model := "m", timestamp := "", severity := "medium" }] := by
  constructor
  · exact check_thresholds_matches_spec defaultThresholds _
      (by norm_num [defaultThresholds]) (by norm_num [defaultThresholds])
      (by norm_num [defaultThresholds]) (by norm_num [defaultThresholds])
      (by norm_num [defaultThresholds])
  · norm_num [check_thresholds_spec, spec_opt_exceed, spec_exceed_alert, spec_throughput_low, defaultThresholds]

theorem threshold_check_mem (n : String) (v : ℚ) (tOpt : Option ℚ)
    (m : PerformanceMetrics) (a : Alert) (ha : a ∈ threshold_check n v tOpt m) :
    a.metric = n ∧ a.type = "threshold_exceeded" := by
  cases tOpt with
  | none => simp [threshold_check] at ha
  | some th =>
      simp only [threshold_check] at ha
      split at ha
      · simp at ha
        subst ha
        exact ⟨rfl, rfl⟩
      · simp at ha

theorem throughput_check_mem (tOpt : Option ℚ) (m : PerformanceMetrics)
    (a : Alert) (ha : a ∈ throughput_check tOpt m) :
    a.metric = "throughput_tokens_per_sec" ∧ a.type = "throughput_low" := by
  cases tOpt with
  | none => simp [throughput_check] at ha
  | some mt =>
      simp only [throughput_check] at ha
      split at ha
      · simp at ha
        subst ha
        exact ⟨rfl, rfl⟩
      · simp at ha

theorem threshold_check_untruthy (n : String) (v : ℚ) (tOpt : Option ℚ)
    (m : PerformanceMetrics) (h : tOpt = none ∨ tOpt = some 0) :
    threshold_check n v tOpt m = [] := by
  rcases h with h | h <;> subst h
  · rfl
  · simp [threshold_check]

theorem throughput_check_untruthy (tOpt : Option ℚ) (m : PerformanceMetrics)
    (h : tOpt = none ∨ tOpt = some 0) :
    throughput_check tOpt m = [] := by
  rcases h with h | h <;> subst h
  · rfl
  · simp [throughput_check]

theorem threshold_check_all_metric_ne (n : String) (v : ℚ) (tOpt : Option ℚ)
    (m : PerformanceMetrics) (n' : String) (hne : n ≠ n') :
    (threshold_check n v tOpt m).all (fun a => a.metric != n') = true := by
  rw [List.all_eq_true]
  intro a ha
  have hm := (threshold_check_mem n v tOpt m a ha).1
  simp [hm, hne]

theorem threshold_check_all_not_throughput (n : String) (v : ℚ) (tOpt : Option ℚ)
    (m : PerformanceMetrics) :
    (threshold_check n v tOpt m).all (fun a => a.type != "throughput_low") = true := by
  rw [List.all_eq_true]
  intro a ha
  have hm := (threshold_check_mem n v tOpt m a ha).2
  simp [hm]

theorem throughput_check_all_metric_ne (tOpt : Option ℚ) (m : PerformanceMetrics)
    (n' : String) (hne : "throughput_tokens_per_sec" ≠ n') :
    (throughput_check tOpt m).all (fun a => a.metric != n') = true := by
  rw [List.all_eq_true]
  intro a ha
  have hm := (throughput_check_mem tOpt m a ha).1
  simp [hm, hne]

/-- C9: each threshold check runs only when the configured threshold is
truthy: when a max-threshold key is absent or set to 0, no alert for that
metric is ever emitted regardless of the observed value, and when the
minimum-throughput key is absent or 0, no throughput_low alert is ever
emitted. -/
theorem evaluator_requires_truthy_thresholds (t : Thresholds) (m : PerformanceMetrics) :
    ((t.max_memory_mb = none ∨ t.max_memory_mb = some 0) →
      (check_thresholds t m).all (fun a => a.metric != "memory_usage_mb") = true)
    ∧ ((t.max_cpu_percent = none ∨ t.max_cpu_percent = some 0) →
      (check_thresholds t m).all (fun a => a.metric != "cpu_usage_percent") = true)
    ∧ ((t.max_inference_time_ms = none ∨ t.max_inference_time_ms = some 0) →
      (check_thresholds t m).all (fun a => a.metric != "inference_time_ms") = true)
    ∧ ((t.max_error_rate = none ∨ t.max_error_rate = some 0) →
      (check_thresholds t m).all (fun a => a.metric != "error_rate") = true)
    ∧ ((t.min_throughput_tokens_per_sec = none ∨
          t.min_throughput_tokens_per_sec = some 0) →
      (check_thresholds t m).all (fun a => a.type != "throughput_low") = true) := by
  refine ⟨fun h => ?_, fun h => ?_, fun h => ?_, fun h => ?_, fun h => ?_⟩ <;>
    rw [check_thresholds_eq] <;>
    simp only [List.all_append, Bool.and_eq_true]
  · exact ⟨⟨⟨⟨by rw [threshold_check_untruthy _ _ _ _ h]; rfl,
      threshold_check_all_metric_ne _ _ _ _ _ (by decide)⟩,
      threshold_check_all_metric_ne _ _ _ _ _ (by decide)⟩,
      threshold_check_all_metric_ne _ _ _ _ _ (by decide)⟩,
      throughput_check_all_metric_ne _ _ _ (by decide)⟩
  · exact ⟨⟨⟨⟨threshold_check_all_metric_ne _ _ _ _ _ (by decide),
      by rw [threshold_check_untruthy _ _ _ _ h]; rfl⟩,
      threshold_check_all_metric_ne _ _ _ _ _ (by decide)⟩,
      threshold_check_all_metric_ne _ _ _ _ _ (by decide)⟩,
      throughput_check_all_metric_ne _ _ _ (by decide)⟩
  · exact ⟨⟨⟨⟨threshold_check_all_metric_ne _ _ _ _ _ (by decide),
      threshold_check_all_metric_ne _ _ _ _ _ (by decide)⟩,
      by rw [threshold_check_untruthy _ _ _ _ h]; rfl⟩,
      threshold_check_all_metric_ne _ _ _ _ _ (by decide)⟩,
      throughput_check_all_metric_ne _ _ _ (by decide)⟩
  · exact ⟨⟨⟨⟨threshold_check_all_metric_ne _ _ _ _ _ (by decide),
      threshold_check_all_metric_ne _ _ _ _ _ (by decide)⟩,
      threshold_check_all_metric_ne _ _ _ _ _ (by decide)⟩,
      by rw [threshold_check_untruthy _ _ _ _ h]; rfl⟩,
      throughput_check_all_metric_ne _ _ _ (by decide)⟩
  · exact ⟨⟨⟨⟨threshold_check_all_not_throughput _ _ _ _,
      threshold_check_all_not_throughput _ _ _ _⟩,
      threshold_check_all_not_throughput _ _ _ _⟩,
      threshold_check_all_not_throughput _ _ _ _⟩,
      by rw [throughput_check_untruthy _ _ h]; rfl⟩

/-- Witness for C9: a table with every key absent, on a sample with huge
values, produces alerts for no metric at all. -/
theorem evaluator_requires_truthy_thresholds_witness :
    (check_thresholds {}
        { model_name := "m", memory_usage_mb := 999999,
          cpu_usage_percent := 999999, inference_time_ms := 999999,
          error_rate := 999999, throughput_tokens_per_sec := 0 }).all
      (fun a => a.metric != "memory_usage_mb") = true
    ∧ (check_thresholds {}
        { model_name := "m", memory_usage_mb := 999999,
          cpu_usage_percent := 999999, inference_time_ms := 999999,
          error_rate := 999999, throughput_tokens_per_sec := 0 }).all
      (fun a => a.type != "throughput_low") = true :=
  ⟨(evaluator_requires_truthy_thresholds {} _).1 (Or.inl rfl),
   (evaluator_requires_truthy_thresholds {} _).2.2.2.2 (Or.inl rfl)⟩

theorem histAppend_lookup (h : List (String × List PerformanceMetrics))
    (name : String) (m : PerformanceMetrics) :
    (histAppend h name m).lookup name = some ((h.lookup name).getD [] ++ [m]) := by
  induction h with
  | nil => simp [histAppend, List.lookup]
  | cons p rest ih =>
      obtain ⟨k, v⟩ := p
      by_cases hk : k = name
      · subst hk
        simp [histAppend, List.lookup]
      · have hk' : (name == k) = false := by simp [Ne.symm hk]
        simp [histAppend, hk, List.lookup, hk', ih]

theorem track_performance_history (st : PerformanceMonitor) (name : String)
    (m : PerformanceMetrics) :
    (track_performance st name m).1.performance_history =
      histAppend st.performance_history name m := rfl

theorem trackMany_lookup (name : String) (ms : List PerformanceMetrics) :
    ∀ st : PerformanceMonitor,
      ((trackMany st name ms).performance_history.lookup name).getD [] =
        ((st.performance_history.lookup name).getD []) ++ ms := by
  induction ms with
  | nil => intro st; simp [trackMany]
  | cons m rest ih =>
      intro st
      have hstep : trackMany st name (m :: rest) =
          trackMany (track_performance st name m).1 name rest := rfl
      rw [hstep, ih, track_performance_history, histAppend_lookup]
      simp

/-- C2: tracking is append-only per model (N calls for a model with no prior
history leave exactly those N samples, in call order); from any monitor
state — so at every call of a sequence, not only the first — each call
appends exactly that call's evaluator alerts to the end of the global alert
log, with no deduplication; and the returned result carries the sample's
serialized form, only this call's alerts, the trend record computed on the
history including the new sample (the model's prior history with the new
sample appended), and the sample's status. -/
theorem track_performance_spec (st : PerformanceMonitor) (name : String)
    (m : PerformanceMetrics) (ms : List PerformanceMetrics) :
    (st.performance_history.lookup name = none →
      ((trackMany st name ms).performance_history.lookup name).getD [] = ms)
    ∧ (track_performance st name m).1.alerts
        = st.alerts ++ check_thresholds st.thresholds m
    ∧ (track_performance st name m).2.alerts = check_thresholds st.thresholds m
    ∧ (track_performance st name m).2.current_metrics = m.to_dict
    ∧ (track_performance st name m).2.trends =
        calculate_trends ((st.performance_history.lookup name).getD [] ++ [m])
    ∧ (track_performance st name m).2.status = m.status := by
  refine ⟨fun hfresh => ?_, rfl, rfl, rfl, ?_, rfl⟩
  · rw [trackMany_lookup, hfresh]
    rfl
  · show calculate_trends
        (((histAppend st.performance_history name m).lookup name).getD [])
      = calculate_trends ((st.performance_history.lookup name).getD [] ++ [m])
    rw [histAppend_lookup]
    rfl

/-- Witness for C2: tracking two samples of model "m" on a fresh monitor
leaves exactly those two samples as its history; the second call (on the
one-sample state, not a fresh one) returns the trend record of the
two-sample updated history; and a call's result status is the sample's. -/
theorem track_performance_spec_witness :
    ((trackMany init_monitor "m" [defaultMetrics, defaultMetrics]).performance_history.lookup
        "m").getD [] = [defaultMetrics, defaultMetrics]
    ∧ (track_performance (track_performance init_monitor "m" defaultMetrics).1 "m"
        defaultMetrics).2.trends
        = calculate_trends [defaultMetrics, defaultMetrics]
    ∧ (track_performance init_monitor "m" defaultMetrics).2.alerts
        = check_thresholds init_monitor.thresholds defaultMetrics
    ∧ (track_performance init_monitor "m" defaultMetrics).2.status
        = defaultMetrics.status := by
  have h1 := track_performance_spec init_monitor "m" defaultMetrics
    [defaultMetrics, defaultMetrics]
  have h2 := track_performance_spec
    (track_performance init_monitor "m" defaultMetrics).1 "m" defaultMetrics []
  exact ⟨h1.1 rfl, h2.2.2.2.2.1, h1.2.2.1, h1.2.2.2.2.2⟩

/-- C4: a model with no recorded history gets the "no data" error condition,
not a default summary; a model with non-empty history `h` gets the latest
(last-appended) sample, the arithmetic means over the full history of the
four metrics, the total sample count, and the count of alerts in the global
log whose model name equals the queried name; after exactly one track call
on a fresh monitor the latest sample is that sample and every average is
that sample's value. -/
theorem get_model_summary_spec (st : PerformanceMonitor) (name : String)
    (h : List PerformanceMetrics) (m : PerformanceMetrics) :
    ((st.performance_history.lookup name).getD [] = [] →
      get_model_summary st name = .error "No performance data available")
    ∧ (st.performance_history.lookup name = some h → h ≠ [] →
      get_model_summary st name = .ok
        { model_name := name
          latest_metrics := (h.getLastD defaultMetrics).to_dict
          avg_memory := (h.map (·.memory_usage_mb)).sum / h.length
          avg_cpu := (h.map (·.cpu_usage_percent)).sum / h.length
          avg_inference := (h.map (·.inference_time_ms)).sum / h.length
          avg_throughput := (h.map (·.throughput_tokens_per_sec)).sum / h.length
          metrics_count := h.length
          alerts_count := (st.alerts.filter (fun a => a.model == name)).length
          status := (h.getLastD defaultMetrics).status })
    ∧ get_model_summary (track_performance init_monitor name m).1 name = .ok
        { model_name := name
          latest_metrics := m.to_dict
          avg_memory := m.memory_usage_mb
          avg_cpu := m.cpu_usage_percent
          avg_inference := m.inference_time_ms
          avg_throughput := m.throughput_tokens_per_sec
          metrics_count := 1
          alerts_count := ((check_thresholds defaultThresholds m).filter
            (fun a => a.model == name)).length
          status := m.status } := by
  refine ⟨fun he => ?_, fun hs hne => ?_, ?_⟩
  · simp [get_model_summary, he]
  · simp [get_model_summary, hs, hne]
  · have hist : (track_performance init_monitor name m).1.performance_history
        = [(name, [m])] := rfl
    have halerts : (track_performance init_monitor name m).1.alerts
        = check_thresholds defaultThresholds m := by
      simp [track_performance, init_monitor]
    simp [get_model_summary, hist, halerts, List.lookup]

/-- Witness for C4: a fresh monitor reports the "no data" error for an
untracked name, and after one track call the summary carries that sample
and its values as every average. -/
theorem get_model_summary_spec_witness :
    get_model_summary init_monitor "m" = .error "No performance data available"
    ∧ get_model_summary (track_performance init_monitor "m" defaultMetrics).1 "m" = .ok
        { model_name := "m"
          latest_metrics := defaultMetrics.to_dict
          avg_memory := defaultMetrics.memory_usage_mb
          avg_cpu := defaultMetrics.cpu_usage_percent
          avg_inference := defaultMetrics.inference_time_ms
          avg_throughput := defaultMetrics.throughput_tokens_per_sec
          metrics_count := 1
          alerts_count := ((check_thresholds defaultThresholds defaultMetrics).filter
            (fun a => a.model == "m")).length
          status := defaultMetrics.status } :=
  ⟨(get_model_summary_spec init_monitor "m" [] defaultMetrics).1 rfl,
   (get_model_summary_spec init_monitor "m" [] defaultMetrics).2.2⟩

/-- Counterexample for C6: the name "distilbert-base-uncased" contains both
the pattern "bert-base" (length 9, listed first) and the longer pattern
"distilbert" (length 10). The collector's estimate takes the first pattern
in table order and reports 440; longest-match selection would report 268. -/
theorem estimate_model_size_longest_counterexample :
    (collect_metrics {}
        { name := "distilbert-base-uncased", task_type := "text-classification",
          library := "transformers" }
        "ts" (.error ()) (.error ()) none 0 0).2.model_size_mb = 440
    ∧ estimate_longest_spec
        { name := "distilbert-base-uncased", task_type := "text-classification",
          library := "transformers" } = 268
    ∧ (440 : ℚ) ≠ 268 := by
  refine ⟨rfl, rfl, ?_⟩
  norm_num

theorem estimate_size_loop_eq_find (nameLower : String) (l : List (String × ℚ)) :
    estimate_size_loop nameLower l =
      match l.find? (fun p => containsSub p.1 nameLower) with
      | some p => p.2
      | none => 300 := by
  induction l with
  | nil => rfl
  | cons p rest ih =>
      by_cases hc : containsSub p.1 nameLower = true
      · simp [estimate_size_loop, List.find?_cons, hc]
      · simp only [Bool.not_eq_true] at hc
        simp [estimate_size_loop, List.find?_cons, hc, ih]

theorem estimate_model_size_eq_first_spec (model : ModelInfo) :
    estimate_model_size model = estimate_first_spec model := by
  rw [estimate_model_size, estimate_first_spec, estimate_size_loop_eq_find]

/-- C6 (amended): a descriptor with a declared (positive) size reports that
size exactly; a descriptor without one reports the size of the first
pattern, in the fixed table order, occurring as a substring of the
lowercased model name — 300.0 when no pattern matches. -/
theorem collect_model_size_spec (st : CollectorState) (model : ModelInfo)
    (ts : String) (mi ci : Except Unit ℚ) (gpu : Option ℚ) (er sd s : ℚ) :
    (model.size_mb = some s → 0 < s →
      (collect_metrics st model ts mi ci gpu er sd).2.model_size_mb = s)
    ∧ (model.size_mb = none →
      (collect_metrics st model ts mi ci gpu er sd).2.model_size_mb
        = estimate_first_spec model) := by
  constructor
  · intro hs hpos
    simp [collect_metrics, hs, ne_of_gt hpos]
  · intro hn
    rw [← estimate_model_size_eq_first_spec]
    simp [collect_metrics, hn]

/-- Witness for C6 (amended): a declared size of 100 is reported exactly;
the undeclared "gpt2" matches the pattern "gpt2" and reports 548. -/
theorem collect_model_size_spec_witness :
    (collect_metrics {}
        { name := "x", task_type := "text-classification", library := "t",
          size_mb := some 100 }
        "ts" (.error ()) (.error ()) none 0 0).2.model_size_mb = 100
    ∧ (collect_metrics {}
        { name := "gpt2", task_type := "text-generation", library := "t" }
        "ts" (.error ()) (.error ()) none 0 0).2.model_size_mb = 548 := by
  constructor
  · exact (collect_model_size_spec {} _ "ts" (.error ()) (.error ()) none 0 0 100).1
      rfl (by norm_num)
  · rw [(collect_model_size_spec {} _ "ts" (.error ()) (.error ()) none 0 0 0).2 rfl]
    rfl

theorem status_select_spec_mem (model : ModelInfo) (r : ℚ) :
    status_select_spec model r = "healthy" ∨ status_select_spec model r = "warning"
      ∨ status_select_spec model r = "degraded" := by
  unfold status_select_spec
  dsimp only
  split_ifs <;> simp

/-- C7: for every descriptor, every adjustment case and every draw `r` in
`[0,1)`, the status selection agrees with the spec: cumulative-weight
comparison in the fixed order healthy, warning, degraded over the base
weights {0.8, 0.15, 0.05} shifted by (-0.10, +0.08, +0.02) when the
declared size exceeds 1000 MB and by (-0.05, +0.04, +0.01) when the task
type is text-generation or summarization, renormalized to sum to 1 (the
adjusted weights already sum to 1, so renormalization is exact); the result
is always one of the three statuses. -/
theorem determine_status_spec (model : ModelInfo) (r : ℚ)
    (h0 : 0 ≤ r) (h1 : r < 1) :
    determine_status model r = status_select_spec model r
    ∧ (determine_status model r = "healthy" ∨ determine_status model r = "warning"
        ∨ determine_status model r = "degraded")
    ∧ (adjusted_weights_spec model).1 + (adjusted_weights_spec model).2.1
        + (adjusted_weights_spec model).2.2 = 1 := by
  have hr1 : r ≤ 1 := le_of_lt h1
  have heq : determine_status model r = status_select_spec model r := by
    rcases hs : model.size_mb with _ | s
    · by_cases t1 : model.task_type = "text-generation"
      · simp [determine_status, status_select_spec, normalized_weights_spec,
          adjusted_weights_spec, base_weights_spec, hs, t1]
        norm_num [hr1]
      by_cases t2 : model.task_type = "summarization"
      · simp [determine_status, status_select_spec, normalized_weights_spec,
          adjusted_weights_spec, base_weights_spec, hs, t1, t2]
        norm_num [hr1]
      · simp [determine_status, status_select_spec, normalized_weights_spec,
          adjusted_weights_spec, base_weights_spec, hs, t1, t2]
        norm_num [hr1]
    · by_cases hbig : s > 1000
      · have hs0 : s ≠ 0 := by positivity
        by_cases t1 : model.task_type = "text-generation"
        · simp [determine_status, status_select_spec, normalized_weights_spec,
            adjusted_weights_spec, base_weights_spec, hs, hbig, hs0, t1]
          norm_num [hr1]
        by_cases t2 : model.task_type = "summarization"
        · simp [determine_status, status_select_spec, normalized_weights_spec,
            adjusted_weights_spec, base_weights_spec, hs, hbig, hs0, t1, t2]
          norm_num [hr1]
        · simp [determine_status, status_select_spec, normalized_weights_spec,
            adjusted_weights_spec, base_weights_spec, hs, hbig, hs0, t1, t2]
          norm_num [hr1]
      · by_cases t1 : model.task_type = "text-generation"
        · simp [determine_status, status_select_spec, normalized_weights_spec,
            adjusted_weights_spec, base_weights_spec, hs, hbig, t1]
          norm_num [hr1]
        by_cases t2 : model.task_type = "summarization"
        · simp [determine_status, status_select_spec, normalized_weights_spec,
            adjusted_weights_spec, base_weights_spec, hs, hbig, t1, t2]
          norm_num [hr1]
        · simp [determine_status, status_select_spec, normalized_weights_spec,
            adjusted_weights_spec, base_weights_spec, hs, hbig, t1, t2]
          norm_num [hr1]
  have hsum : (adjusted_weights_spec model).1 + (adjusted_weights_spec model).2.1
      + (adjusted_weights_spec model).2.2 = 1 := by
    rcases hs : model.size_mb with _ | s
    · by_cases ht : model.task_type = "text-generation"
        ∨ model.task_type = "summarization"
      · norm_num [adjusted_weights_spec, base_weights_spec, hs, ht]
      · norm_num [adjusted_weights_spec, base_weights_spec, hs, ht]
    · by_cases hbig : s > 1000
      · by_cases ht : model.task_type = "text-generation"
          ∨ model.task_type = "summarization"
        · norm_num [adjusted_weights_spec, base_weights_spec, hs, hbig, ht]
        · norm_num [adjusted_weights_spec, base_weights_spec, hs, hbig, ht]
      · by_cases ht : model.task_type = "text-generation"
          ∨ model.task_type = "summarization"
        · norm_num [adjusted_weights_spec, base_weights_spec, hs, hbig, ht]
        · norm_num [adjusted_weights_spec, base_weights_spec, hs, hbig, ht]
  exact ⟨heq, heq ▸ status_select_spec_mem model r, hsum⟩

/-- Witness for C7: a large (1200 MB) text-generation model with draw 1/2:
the adjusted, renormalized weights are (0.65, 0.27, 0.08) and 1/2 ≤ 0.65
selects "healthy" on both sides. -/
theorem determine_status_spec_witness :
    determine_status
        { name := "m", task_type := "text-generation", library := "t",
          size_mb := some 1200 } (1/2)
      = status_select_spec
        { name := "m", task_type := "text-generation", library := "t",
          size_mb := some 1200 } (1/2)
    ∧ determine_status
        { name := "m", task_type := "text-generation", library := "t",
          size_mb := some 1200 } (1/2) = "healthy" := by
  have h := determine_status_spec
    { name := "m", task_type := "text-generation", library := "t",
      size_mb := some 1200 } (1/2) (by norm_num) (by norm_num)
  refine ⟨h.1, ?_⟩
  rw [h.1]
  norm_num [status_select_spec, normalized_weights_spec, adjusted_weights_spec,
    base_weights_spec]

theorem lookup_mem {β : Type} (l : List (String × β)) (name : String) (v : β)
    (h : l.lookup name = some v) : (name, v) ∈ l := by
  induction l with
  | nil => simp [List.lookup] at h
  | cons p rest ih =>
      obtain ⟨k, w⟩ := p
      by_cases hk : name = k
      · subst hk
        simp [List.lookup] at h
        subst h
        exact List.mem_cons_self _ _
      · have hk' : (name == k) = false := by simp [hk]
        simp [List.lookup, hk'] at h
        exact List.mem_cons_of_mem _ (ih h)

theorem histAppend_nonempty (h : List (String × List PerformanceMetrics))
    (name : String) (m : PerformanceMetrics)
    (H : ∀ p ∈ h, p.2 ≠ []) :
    ∀ p ∈ histAppend h name m, p.2 ≠ [] := by
  induction h with
  | nil =>
      intro p hp
      simp [histAppend] at hp
      rw [hp]
      simp
  | cons q rest ih =>
      obtain ⟨k, v⟩ := q
      intro p hp
      by_cases hk : k = name
      · subst hk
        have he : histAppend ((k, v) :: rest) k m = (k, v ++ [m]) :: rest := by
          simp [histAppend]
        rw [he] at hp
        cases List.mem_cons.mp hp with
        | inl h1 => rw [h1]; simp
        | inr h2 => exact H p (List.mem_cons_of_mem _ h2)
      · have he : histAppend ((k, v) :: rest) name m
            = (k, v) :: histAppend rest name m := by
          simp [histAppend, hk]
        rw [he] at hp
        cases List.mem_cons.mp hp with
        | inl h1 => rw [h1]; exact H (k, v) (List.mem_cons_self _ _)
        | inr h2 => exact ih (fun q hq => H q (List.mem_cons_of_mem _ hq)) p h2

theorem reachable_histories_nonempty (st : PerformanceMonitor) (hr : Reachable st) :
    ∀ p ∈ st.performance_history, p.2 ≠ [] := by
  induction hr with
  | init => intro p hp; simp [init_monitor] at hp
  | track st' name m _ ih =>
      rw [track_performance_history]
      exact histAppend_nonempty _ _ _ ih
  | set_thresholds st' t _ ih => exact ih

theorem bumpCount_sum (counts : List (String × Nat)) (s : String) :
    ((bumpCount counts s).map Prod.snd).sum = (counts.map Prod.snd).sum + 1 := by
  induction counts with
  | nil => rfl
  | cons p rest ih =>
      obtain ⟨k, v⟩ := p
      by_cases hk : k = s
      · subst hk
        simp [bumpCount]
        omega
      · simp [bumpCount, hk, ih]
        omega

theorem overview_fold_sum (l : List (String × List PerformanceMetrics)) :
    ∀ counts : List (String × Nat),
      ((l.foldl (fun counts p =>
          if p.2.isEmpty then counts
          else bumpCount counts (p.2.getLastD defaultMetrics).status) counts).map
        Prod.snd).sum
        = (counts.map Prod.snd).sum + l.countP (fun p => !p.2.isEmpty) := by
  induction l with
  | nil => intro counts; simp
  | cons p rest ih =>
      intro counts
      rw [List.foldl_cons]
      by_cases he : p.2.isEmpty
      · rw [if_pos he, ih]
        simp [List.countP_cons, he]
      · rw [if_neg he, ih, bumpCount_sum]
        simp only [Bool.not_eq_true] at he
        simp [List.countP_cons, he]
        omega

theorem countP_nonempty_eq_length (l : List (String × List PerformanceMetrics))
    (H : ∀ p ∈ l, p.2 ≠ []) :
    l.countP (fun p => !p.2.isEmpty) = l.length := by
  rw [List.countP_eq_length]
  intro a ha
  simp [List.isEmpty_iff]
  exact H a ha

/-- C10: on every reachable tracker state, every stored history list is
non-empty (a history is only created inside track, which immediately
appends the new sample); hence the summary's averages never divide by zero
(whenever a summary is returned its sample count is positive) and the
overview's status histogram counts exactly one entry per tracked model, so
its counts sum to total_models_monitored. -/
theorem tracker_history_invariant (st : PerformanceMonitor) (name : String)
    (hr : Reachable st) :
    st.performance_history.all (fun p => !p.2.isEmpty) = true
    ∧ ((get_system_overview st).status_distribution.map Prod.snd).sum
        = (get_system_overview st).total_models_monitored
    ∧ summary_count_pos (get_model_summary st name) = true := by
  have H := reachable_histories_nonempty st hr
  refine ⟨?_, ?_, ?_⟩
  · rw [List.all_eq_true]
    intro p hp
    simp [List.isEmpty_iff]
    exact H p hp
  · simp only [get_system_overview]
    rw [overview_fold_sum]
    simp [countP_nonempty_eq_length _ H]
  · cases hl : st.performance_history.lookup name with
    | none => simp [get_model_summary, summary_count_pos, hl]
    | some h =>
        have hne : h ≠ [] := H (name, h) (lookup_mem _ _ _ hl)
        simp [get_model_summary, summary_count_pos, hl, hne, List.length_pos]

/-- Witness for C10: the state after one track call on a fresh monitor is
reachable; its single history is non-empty, its histogram counts sum to its
model total, and the summary divisor is positive. -/
theorem tracker_history_invariant_witness :
    (track_performance init_monitor "m" defaultMetrics).1.performance_history.all
        (fun p => !p.2.isEmpty) = true
    ∧ ((get_system_overview
          (track_performance init_monitor "m" defaultMetrics).1).status_distribution.map
        Prod.snd).sum
        = (get_system_overview
            (track_performance init_monitor "m" defaultMetrics).1).total_models_monitored
    ∧ summary_count_pos
        (get_model_summary (track_performance init_monitor "m" defaultMetrics).1 "m")
        = true :=
  tracker_history_invariant _ "m" (Reachable.track _ _ _ Reachable.init)
